import Mathlib

/-
Verification development for the Agent-Backend-LangChain repository.

Shallow embedding notes:
* Python strings are modelled as `List Char` (`Str`).  The regular
  expressions of the source use `re.IGNORECASE` on ASCII character
  classes (`[A-Z]`, `[0-9]`, `[A-Z0-9-]`, `\b`, `\s`); we model the
  character classes over ASCII, which is the range the patterns are
  written for.
* `re.search` scans positions left to right and returns the leftmost
  match; each concrete pattern of the source is compiled by hand into a
  deterministic matcher at a position (the patterns are simple enough
  that greedy matching plus the trailing `\b` forces a unique match at
  each position, mirroring the backtracking engine).
* Python `datetime.strptime` on the four fixed formats of
  `calcular_vencimiento` is embedded with the exact token regexes used
  by CPython (`%Y` = four digits, `%m` = `1[0-2]|0[1-9]|[1-9]`,
  `%d` = `3[01]|[12]\d|0[1-9]|[1-9]`), full-string consumption, and
  the calendar validation performed by the `datetime` constructor
  (year at least 1, day at most the month length).  Dates are bounded
  by `date.min`/`date.max` (ordinals 1 .. 3652059); stepping outside
  raises `OverflowError` in Python, which the source catches into its
  error result.
-/

abbrev Str := List Char

/-- ASCII digit `[0-9]`. -/
def isAsciiDigitB (c : Char) : Bool := 48 ≤ c.toNat && c.toNat ≤ 57

/-- ASCII uppercase letter `[A-Z]`. -/
def isAsciiUpperB (c : Char) : Bool := 65 ≤ c.toNat && c.toNat ≤ 90

/-- ASCII lowercase letter `[a-z]`. -/
def isAsciiLowerB (c : Char) : Bool := 97 ≤ c.toNat && c.toNat ≤ 122

/-- Letter class `[A-Z]` under `re.IGNORECASE` (ASCII model). -/
def isAsciiLetterB (c : Char) : Bool := isAsciiUpperB c || isAsciiLowerB c

/-- Alphanumeric class `[A-Z0-9]` under `re.IGNORECASE` (ASCII model). -/
def isAlnumB (c : Char) : Bool := isAsciiLetterB c || isAsciiDigitB c

/-- Regex word character (`\w`, ASCII model): letter, digit or underscore. -/
def isWordCharB (c : Char) : Bool := isAlnumB c || c = '_'

/-- Regex whitespace `\s` (ASCII model): space, tab, LF, VT, FF, CR. -/
def isSpaceB (c : Char) : Bool :=
  c = ' ' || c = '\t' || c = '\n' || c = '\x0b' || c = '\x0c' || c = '\r'

/-- Character class `[A-Z0-9-]` under `re.IGNORECASE` (ASCII model). -/
def isIdClassB (c : Char) : Bool := isAlnumB c || c = '-'

/-- ASCII lowercasing, as `str.lower` acts on the ASCII identifiers the
extractors return. -/
def lowerChar (c : Char) : Char :=
  if 65 ≤ c.toNat ∧ c.toNat ≤ 90 then Char.ofNat (c.toNat + 32) else c

/-- ASCII uppercasing, as `str.upper` acts on the ASCII identifiers the
extractors return. -/
def upperChar (c : Char) : Char :=
  if 97 ≤ c.toNat ∧ c.toNat ≤ 122 then Char.ofNat (c.toNat - 32) else c

/-- `str.lower` on a whole string. -/
def lowerStr (s : Str) : Str := s.map lowerChar

/-- `str.upper` on a whole string. -/
def upperStr (s : Str) : Str := s.map upperChar

/-- `str.replace "-" "_"`. -/
def replaceHyphen (s : Str) : Str := s.map (fun c => if c = '-' then '_' else c)

/-- `\b` to the left of a word character at the current position:
satisfied at the start of the text or after a non-word character. -/
def atBoundary (prev : Option Char) : Bool :=
  match prev with
  | none => true
  | some c => !isWordCharB c

/-- `\b` to the right of a word character: satisfied at the end of the
text or before a non-word character. -/
def afterOk (rest : Str) : Bool :=
  match rest with
  | [] => true
  | c :: _ => !isWordCharB c

/-- Matcher at one position for `\b([A-Z]{2,4}\d{6,})\b` (IGNORECASE),
pattern 1 of `_extract_invoice_identifier_from_text`
(src/app/flows/custom_agent.py line 42).  Greedy matching with the two
trailing context checks forces the letter run and the digit run to be
the maximal runs at the position. -/
def match_pat1_at (prev : Option Char) (s : Str) : Option Str :=
  if atBoundary prev then
    let letters := s.takeWhile isAsciiLetterB
    if 2 ≤ letters.length ∧ letters.length ≤ 4 then
      let rest1 := s.drop letters.length
      let digits := rest1.takeWhile isAsciiDigitB
      if 6 ≤ digits.length ∧ afterOk (rest1.drop digits.length) then
        some (letters ++ digits)
      else none
    else none
  else none

/-- Matcher at one position for `\b([A-Z]+-\d+)\b` (IGNORECASE),
pattern 2 (custom_agent.py line 43). -/
def match_pat2_at (prev : Option Char) (s : Str) : Option Str :=
  if atBoundary prev then
    let letters := s.takeWhile isAsciiLetterB
    if 1 ≤ letters.length then
      match s.drop letters.length with
      | '-' :: rest2 =>
        let digits := rest2.takeWhile isAsciiDigitB
        if 1 ≤ digits.length ∧ afterOk (rest2.drop digits.length) then
          some (letters ++ '-' :: digits)
        else none
      | _ => none
    else none
  else none

/-- Case-insensitive literal consumption: consumes the pattern (given in
lowercase) from the text, returning the remainder. -/
def stripLitCI : Str → Str → Option Str
  | [], s => some s
  | _ :: _, [] => none
  | p :: ps, c :: cs => if lowerChar c = p then stripLitCI ps cs else none

/-- Matcher at one position for `\bfactura\s+([A-Z0-9-]+)` (IGNORECASE),
pattern 3 (custom_agent.py line 44).  The captured group is the token
after the whitespace. -/
def match_pat3_at (prev : Option Char) (s : Str) : Option Str :=
  if atBoundary prev then
    match stripLitCI ("factura".toList) s with
    | some rest =>
      let ws := rest.takeWhile isSpaceB
      if 1 ≤ ws.length then
        let rest2 := rest.drop ws.length
        let tok := rest2.takeWhile isIdClassB
        if 1 ≤ tok.length then some tok else none
      else none
    | none => none
  else none

/-- Matcher at one position for `\b([A-Z0-9]{32})\b` (IGNORECASE), the
CUFE fallback pattern (custom_agent.py line 53). -/
def match_cufe_at (prev : Option Char) (s : Str) : Option Str :=
  if atBoundary prev then
    let pre := s.take 32
    if pre.length = 32 ∧ pre.all isAlnumB ∧ afterOk (s.drop 32) then
      some pre
    else none
  else none

/-- Matcher at one position for `\b([A-Z]{2}\d{9})\b` (IGNORECASE), the
extra fourth pattern of the service-side extractor
(src/app/services/custom_agent_service.py line 131). -/
def match_pat4_at (prev : Option Char) (s : Str) : Option Str :=
  if atBoundary prev then
    let letters := s.take 2
    let digits := (s.drop 2).take 9
    if letters.length = 2 ∧ letters.all isAsciiLetterB ∧
        digits.length = 9 ∧ digits.all isAsciiDigitB ∧ afterOk (s.drop 11) then
      some (letters ++ digits)
    else none
  else none

/-- `re.search` driver: try the matcher at every position from left to
right, feeding it the previous character for the `\b` test. -/
def searchFrom (m : Option Char → Str → Option Str) :
    Option Char → Str → Option Str
  | prev, [] =>
    (match m prev [] with
     | some r => some r
     | none => none)
  | prev, c :: rest =>
    (match m prev (c :: rest) with
     | some r => some r
     | none => searchFrom m (some c) rest)

/-- `re.search(pattern, text)` returning the captured group of the
leftmost match. -/
def re_search (m : Option Char → Str → Option Str) (s : Str) : Option Str :=
  searchFrom m none s

/-- `_extract_invoice_identifier_from_text` (src/app/flows/custom_agent.py
lines 36-57): the three invoice patterns in order, then the CUFE
pattern. -/
def extract_invoice_identifier_from_text (text : Str) : Option Str :=
  match re_search match_pat1_at text with
  | some r => some r
  | none =>
  match re_search match_pat2_at text with
  | some r => some r
  | none =>
  match re_search match_pat3_at text with
  | some r => some r
  | none => re_search match_cufe_at text

/-- `_extract_invoice_identifier` (src/app/services/custom_agent_service.py
lines 120-147): same as the flow-side extractor but with the extra
`\b([A-Z]{2}\d{9})\b` pattern checked fourth, before the CUFE
fallback. -/
def extract_invoice_identifier (question : Str) : Option Str :=
  match re_search match_pat1_at question with
  | some r => some r
  | none =>
  match re_search match_pat2_at question with
  | some r => some r
  | none =>
  match re_search match_pat3_at question with
  | some r => some r
  | none =>
  match re_search match_pat4_at question with
  | some r => some r
  | none => re_search match_cufe_at question

/-- `_generate_thread_id` (src/app/services/custom_agent_service.py lines
149-169).  The `hashlib.md5` content hash used by the no-identifier
fallback branch is an external library call; it is abstracted as the
function argument `md5hex8` (first 8 hex characters of the digest). -/
def generate_thread_id (md5hex8 : Str → Str) (question : Str) : Str :=
  match extract_invoice_identifier question with
  | some ident => "invoice_".toList ++ replaceHyphen (lowerStr ident)
  | none => "query_".toList ++ md5hex8 question

/-
DateMath: `calcular_vencimiento` (src/app/mcp_server/custom_server.py
lines 161-233).
-/

/-- A calendar date as produced by `datetime.strptime`. -/
structure Ymd where
  year : Nat
  month : Nat
  day : Nat
deriving DecidableEq

/-- Gregorian leap year, as `calendar.isleap` / `datetime`. -/
def isLeapYear (y : Nat) : Bool := y % 4 = 0 ∧ (y % 100 ≠ 0 ∨ y % 400 = 0)

/-- Length of a month. -/
def daysInMonth (y m : Nat) : Nat :=
  if m = 2 then (if isLeapYear y then 29 else 28)
  else if m = 4 ∨ m = 6 ∨ m = 9 ∨ m = 11 then 30
  else 31

/-- Days in year `y` strictly before month `m`. -/
def daysBeforeMonth (y : Nat) : Nat → Nat
  | 0 => 0
  | 1 => 0
  | Nat.succ m => daysBeforeMonth y m + daysInMonth y m

/-- Proleptic-Gregorian ordinal of a date, with day 1 = 0001-01-01,
exactly `date.toordinal` in Python. -/
def toOrdinalN (d : Ymd) : Nat :=
  365 * (d.year - 1) + (d.year - 1) / 4 - (d.year - 1) / 100 + (d.year - 1) / 400
    + daysBeforeMonth d.year d.month + d.day

/-- `date.max.toordinal()`: the ordinal of 9999-12-31, the largest date
representable by Python `datetime.date`. -/
def date_max_ordinal : Nat := 3652059

/-- Month/day recovery within a year: `r` is the 0-based day offset into
year `y`; walk the months.  `fuel` bounds the walk (11 suffices). -/
def monthSearch (y : Nat) : Nat → Nat → Nat → Ymd
  | 0, m, r => ⟨y, m, r + 1⟩
  | Nat.succ fuel, m, r =>
    if r < daysInMonth y m then ⟨y, m, r + 1⟩
    else monthSearch y fuel (m + 1) (r - daysInMonth y m)

/-- Inverse of `toOrdinalN` on valid ordinals (1 .. 3652059), following
the 400/100/4/1-year decomposition used by CPython's `date.fromordinal`. -/
def fromOrdinal (n : Nat) : Ymd :=
  let n0 := n - 1
  let n400 := n0 / 146097
  let r1 := n0 % 146097
  let n100 := r1 / 36524
  let r2 := r1 % 36524
  let n4 := r2 / 1461
  let r3 := r2 % 1461
  let n1 := r3 / 365
  let r4 := r3 % 365
  let year := n400 * 400 + n100 * 100 + n4 * 4 + n1 + 1
  if n1 = 4 ∨ n100 = 4 then ⟨year - 1, 12, 31⟩
  else monthSearch year 11 1 r4

/-- Numeric value of an ASCII digit character. -/
def digitVal (c : Char) : Nat := c.toNat - 48

/-- `%Y` of CPython `strptime`: exactly four digits. -/
def parseY (s : Str) : Option (Nat × Str) :=
  match s with
  | c1 :: c2 :: c3 :: c4 :: rest =>
    if isAsciiDigitB c1 ∧ isAsciiDigitB c2 ∧ isAsciiDigitB c3 ∧ isAsciiDigitB c4 then
      some (digitVal c1 * 1000 + digitVal c2 * 100 + digitVal c3 * 10 + digitVal c4, rest)
    else none
  | _ => none

/-- Two-digit alternatives of `%m`: `1[0-2]|0[1-9]`. -/
def parseM2 (s : Str) : Option (Nat × Str) :=
  match s with
  | c1 :: c2 :: rest =>
    if c1 = '1' ∧ (c2 = '0' ∨ c2 = '1' ∨ c2 = '2') then some (10 + digitVal c2, rest)
    else if c1 = '0' ∧ isAsciiDigitB c2 ∧ c2 ≠ '0' then some (digitVal c2, rest)
    else none
  | _ => none

/-- One-digit alternative of `%m`: `[1-9]`. -/
def parseM1 (s : Str) : Option (Nat × Str) :=
  match s with
  | c :: rest => if isAsciiDigitB c ∧ c ≠ '0' then some (digitVal c, rest) else none
  | _ => none

/-- Two-digit alternatives of `%d`: `3[01]|[12]\d|0[1-9]`. -/
def parseD2 (s : Str) : Option (Nat × Str) :=
  match s with
  | c1 :: c2 :: rest =>
    if c1 = '3' ∧ (c2 = '0' ∨ c2 = '1') then some (30 + digitVal c2, rest)
    else if (c1 = '1' ∨ c1 = '2') ∧ isAsciiDigitB c2 then
      some (digitVal c1 * 10 + digitVal c2, rest)
    else if c1 = '0' ∧ isAsciiDigitB c2 ∧ c2 ≠ '0' then some (digitVal c2, rest)
    else none
  | _ => none

/-- One-digit alternative of `%d`: `[1-9]`. -/
def parseD1 (s : Str) : Option (Nat × Str) :=
  match s with
  | c :: rest => if isAsciiDigitB c ∧ c ≠ '0' then some (digitVal c, rest) else none
  | _ => none

/-- Regex alternation with backtracking: try the two-digit alternative
first (the alternatives are written longest-first in CPython's
`TimeRE`); if the continuation fails, fall back to the one-digit
alternative. -/
def altNum (p2 p1 : Str → Option (Nat × Str)) (s : Str)
    (k : Nat → Str → Option Ymd) : Option Ymd :=
  match p2 s with
  | some (v, rest) =>
    match k v rest with
    | some r => some r
    | none =>
      match p1 s with
      | some (v1, r1) => k v1 r1
      | none => none
  | none =>
    match p1 s with
    | some (v1, r1) => k v1 r1
    | none => none

/-- Year-first format (`%Y<sep>%m<sep>%d`), requiring the whole string
to be consumed (`strptime` rejects unconverted trailing data). -/
def parse_format_ymd (sep : Char) (s : Str) : Option Ymd :=
  match parseY s with
  | some (y, r1) =>
    match r1 with
    | c :: r2 =>
      if c = sep then
        altNum parseM2 parseM1 r2 (fun m r3 =>
          match r3 with
          | c2 :: r4 =>
            if c2 = sep then
              altNum parseD2 parseD1 r4 (fun d r5 =>
                if r5 = [] then some ⟨y, m, d⟩ else none)
            else none
          | [] => none)
      else none
    | [] => none
  | none => none

/-- Day-first format (`%d<sep>%m<sep>%Y`), whole string consumed. -/
def parse_format_dmy (sep : Char) (s : Str) : Option Ymd :=
  altNum parseD2 parseD1 s (fun d r1 =>
    match r1 with
    | c :: r2 =>
      if c = sep then
        altNum parseM2 parseM1 r2 (fun m r3 =>
          match r3 with
          | c2 :: r4 =>
            if c2 = sep then
              match parseY r4 with
              | some (y, r5) => if r5 = [] then some ⟨y, m, d⟩ else none
              | none => none
            else none
          | [] => none)
      else none
    | [] => none)

/-- `datetime.strptime(s, fmt).date()` for one format: the regex match
plus the calendar validation done by the `datetime` constructor
(year at least `MINYEAR` = 1; the regex already confines the month to
1..12 and the day to 1..31, the constructor further checks the day
against the month length).  A validation failure raises `ValueError`,
which the source's per-format `except ValueError: continue` turns into
trying the next format — modelled as `none`. -/
def strptime_date (fmtParse : Str → Option Ymd) (s : Str) : Option Ymd :=
  match fmtParse s with
  | some d => if 1 ≤ d.year ∧ d.day ≤ daysInMonth d.year d.month then some d else none
  | none => none

/-- `str.strip()` (ASCII whitespace model). -/
def stripStr (s : Str) : Str :=
  ((s.dropWhile isSpaceB).reverse.dropWhile isSpaceB).reverse

/-- Format 1: `"%Y-%m-%d"`. -/
def fmt_ymd_dash : Str → Option Ymd := strptime_date (parse_format_ymd '-')

/-- Format 2: `"%d-%m-%Y"`. -/
def fmt_dmy_dash : Str → Option Ymd := strptime_date (parse_format_dmy '-')

/-- Format 3: `"%d/%m/%Y"`. -/
def fmt_dmy_slash : Str → Option Ymd := strptime_date (parse_format_dmy '/')

/-- Format 4: `"%Y/%m/%d"`. -/
def fmt_ymd_slash : Str → Option Ymd := strptime_date (parse_format_ymd '/')

/-- The `formatos_fecha` list of `calcular_vencimiento` (custom_server.py
lines 184-189), in source order. -/
def formatos_fecha : List (Str → Option Ymd) :=
  [fmt_ymd_dash, fmt_dmy_dash, fmt_dmy_slash, fmt_ymd_slash]

/-- The format-trying loop of `calcular_vencimiento` (lines 191-196):
first format that parses `fecha_emision.strip()` wins. -/
def parse_fecha_emision (s : Str) : Option Ymd :=
  formatos_fecha.findSome? (fun f => f (stripStr s))

/-- Zero-padded decimal rendering. -/
def padNum (width n : Nat) : Str :=
  let s := (Nat.repr n).toList
  List.replicate (width - s.length) '0' ++ s

/-- `date.strftime("%Y-%m-%d")` (glibc renders `%Y` without padding;
`%m` and `%d` are zero-padded to two digits). -/
def format_ymd (d : Ymd) : Str :=
  (Nat.repr d.year).toList ++ '-' :: padNum 2 d.month ++ '-' :: padNum 2 d.day

/-- The JSON object `calcular_vencimiento` serializes: each nullable
JSON field is an `Option`. -/
structure CalcResult where
  fecha_emision : Option Str
  fecha_vencimiento : Option Str
  vencida : Option Bool
  dias_restantes : Option Int
  mensaje : Str
  error : Option Str
deriving DecidableEq

/-- `str(ValueError)` raised when no format parses (line 199). -/
def parse_error_text (s : Str) : Str :=
  "No se pudo parsear la fecha \x27".toList ++ s
    ++ "\x27. Use formato YYYY-MM-DD (ej: 2025-10-03)".toList

/-- `str(OverflowError)` raised by `date + timedelta` when the result
leaves the representable range. -/
def overflow_error_text : Str := "date value out of range".toList

/-- The `except` branch of `calcular_vencimiento` (lines 223-233): echoes
the raw `fecha_emision` argument, nulls the computed fields, and
reports the exception text in `mensaje` and `error`. -/
def error_result (fecha_emision : Str) (e : Str) : CalcResult :=
  { fecha_emision := some fecha_emision
    fecha_vencimiento := none
    vencida := none
    dias_restantes := none
    mensaje := "Hubo un error al intentar calcular la fecha de vencimiento: ".toList ++ e
    error := some e }

/-- `calcular_vencimiento(fecha_emision, dias_credito)` (custom_server.py
lines 161-233).  `hoy` is the ordinal of `datetime.now().date()`, an
external input.  `dias_credito` arrives as an `int`, so the source's
`int(dias_credito)` coercion is the identity here.  The due date is
`fecha_emision + timedelta(days=dias_credito)`; if its ordinal leaves
the range of `datetime.date`, Python raises `OverflowError`, which the
outer `except Exception` turns into the error result. -/
def calcular_vencimiento (fecha_emision : Str) (dias_credito : Int) (hoy : Int) :
    CalcResult :=
  match parse_fecha_emision fecha_emision with
  | none => error_result fecha_emision (parse_error_text fecha_emision)
  | some d =>
    let venc : Int := (toOrdinalN d : Int) + dias_credito
    if venc < 1 ∨ (date_max_ordinal : Int) < venc then
      error_result fecha_emision overflow_error_text
    else
      let dias_restantes : Int := venc - hoy
      let vencida : Bool := decide (dias_restantes < 0)
      { fecha_emision := some (format_ymd d)
        fecha_vencimiento := some (format_ymd (fromOrdinal venc.toNat))
        vencida := some vencida
        dias_restantes := some dias_restantes
        mensaje :=
          if vencida then
            "La factura venció hace ".toList ++ (Int.repr (-dias_restantes)).toList
              ++ " días.".toList
          else
            "Faltan ".toList ++ (Int.repr dias_restantes).toList
              ++ " días para el vencimiento.".toList
        error := none }

/-
AgentLoop state: `AgentState`, `decide_node`'s cache clearing and prompt
construction, and `tools_node` (src/app/flows/custom_agent.py), plus the
`ask_custom` seeding (src/app/services/custom_agent_service.py).
-/

/-- Keyword arguments of a tool call, as an association list of
serialized values (their structure is irrelevant to the claims). -/
abbrev ToolArgs := List (Str × Str)

/-- A `tool_call` entry of an `AIMessage`: `{"id", "name", "args"}`. -/
structure ToolCallReq where
  id : Str
  name : Str
  args : ToolArgs
deriving DecidableEq

/-- A LangChain `ToolMessage`: content plus the originating call id. -/
structure ToolMessage where
  content : Str
  tool_call_id : Str
deriving DecidableEq

/-- The value returned by `await tool.ainvoke(...)`: either a Python
`str`, or some other object together with its `str(...)` rendering
(the `isinstance(result, str)` test distinguishes the two). -/
inductive ToolValue
  | str (s : Str)
  | other (rendering : Str)
deriving DecidableEq

/-- Outcome of invoking a tool: a returned value, or a raised exception
carrying its `str(e)` text. -/
inductive ToolOutcome
  | ok (v : ToolValue)
  | raised (e : Str)
deriving DecidableEq

/-- `str(result)`. -/
def str_of_value : ToolValue → Str
  | .str s => s
  | .other r => r

/-- The message union stored in `AgentState.messages`. -/
inductive ChatMsg
  | human (content : Str)
  | ai (content : Str) (tool_calls : List ToolCallReq)
  | toolRes (m : ToolMessage)
  | system (content : Str)
deriving DecidableEq

/-- The cached `rag_invoice` payload `{"raw_text": ..., "extracted": False}`
(custom_agent.py lines 373-376). -/
structure RagInvoice where
  raw_text : Str
  extracted : Bool
deriving DecidableEq

/-- `AgentState` (custom_agent.py lines 27-30). -/
structure AgentState where
  messages : List ChatMsg
  rag_invoice : Option RagInvoice
deriving DecidableEq

/-- The identifier scan of `decide_node` (custom_agent.py lines 305-310):
walk the messages most-recent-first and return the first identifier
extracted from a `HumanMessage`. -/
def find_current_invoice_id (msgs : List ChatMsg) : Option Str :=
  msgs.reverse.findSome? (fun m =>
    match m with
    | ChatMsg.human c => extract_invoice_identifier_from_text c
    | _ => none)

/-- The cache-clearing step of `decide_node` (custom_agent.py lines
312-319): if a payload is cached and both it and the latest user
message yield identifiers that differ case-insensitively, drop the
cached payload. -/
def decide_clear (st : AgentState) : AgentState :=
  match find_current_invoice_id st.messages with
  | none => st
  | some cid =>
    match st.rag_invoice with
    | none => st
    | some ri =>
      match extract_invoice_identifier_from_text ri.raw_text with
      | none => st
      | some pid =>
        if upperStr pid ≠ upperStr cid then { st with rag_invoice := none } else st

/-- Filter applied when rebuilding the model prompt (custom_agent.py
lines 327-329): only Human/AI/Tool messages are forwarded. -/
def is_conversational : ChatMsg → Bool
  | ChatMsg.human _ => true
  | ChatMsg.ai _ _ => true
  | ChatMsg.toolRes _ => true
  | ChatMsg.system _ => false

/-- The synthetic contextual note appended when invoice text is cached
(custom_agent.py lines 331-336); `n` is `len(invoice_text)`. -/
def context_note (n : Nat) : Str :=
  "Contexto: Ya tengo información de factura obtenida del RAG (".toList
    ++ (Nat.repr n).toList
    ++ " caracteres). Puedo usar esta información para responder preguntas o calcular vencimientos.".toList

/-- Prompt construction of `decide_node` (custom_agent.py lines 321-336),
applied to the state after the clearing step.  The capability prompt
is opaque prose (spec §1 treats prompts as non-contract), so it is the
parameter `system_prompt`. -/
def build_prompt (system_prompt : Str) (st : AgentState) : List ChatMsg :=
  let base := ChatMsg.system system_prompt :: st.messages.filter is_conversational
  match st.rag_invoice with
  | some ri => if ri.raw_text.length ≠ 0 then base ++ [ChatMsg.human (context_note ri.raw_text.length)] else base
  | none => base

/-- The fresh state `ask_custom` seeds for every question
(src/app/services/custom_agent_service.py lines 197-200). -/
def ask_initial_state (question : Str) : AgentState :=
  { messages := [ChatMsg.human question], rag_invoice := none }

/-- Name of the special-cased RAG tool. -/
def rag_tool_name : Str := "rag_get_invoice_data".toList

/-- The literal token `"Error"` used by `result.startswith("Error")`. -/
def error_tok : Str := "Error".toList

/-- `a.startswith(b)` on strings. -/
def startsWithStr : Str → Str → Bool
  | [], _ => true
  | _ :: _, [] => false
  | p :: ps, c :: cs => p = c && startsWithStr ps cs

/-- `f"Error: herramienta '{tool_name}' no existe."` (line 365). -/
def tool_missing_text (name : Str) : Str :=
  "Error: herramienta \x27".toList ++ name ++ "\x27 no existe.".toList

/-- `f"Error ejecutando herramienta {tool_name}: {e}"` (line 380). -/
def tool_failure_text (name : Str) (e : Str) : Str :=
  "Error ejecutando herramienta ".toList ++ name ++ ": ".toList ++ e

/-- Tool-result text of one iteration of the `tools_node` loop
(custom_agent.py lines 359-381): unknown tool and raised exception are
converted to error strings, a returned value is rendered with `str`. -/
def dispatch_call (tools_by_name : Str → Option (ToolArgs → ToolOutcome))
    (call : ToolCallReq) : Str :=
  match tools_by_name call.name with
  | none => tool_missing_text call.name
  | some tool =>
    match tool call.args with
    | ToolOutcome.ok v => str_of_value v
    | ToolOutcome.raised e => tool_failure_text call.name e

/-- The `rag_invoice` write of one iteration (custom_agent.py lines
370-377): present exactly when the call is to `rag_get_invoice_data`,
the tool returned (did not raise) a `str`, and the string does not
start with `"Error"`. -/
def rag_update_of (tools_by_name : Str → Option (ToolArgs → ToolOutcome))
    (call : ToolCallReq) : Option RagInvoice :=
  match tools_by_name call.name with
  | none => none
  | some tool =>
    match tool call.args with
    | ToolOutcome.ok (ToolValue.str s) =>
      if call.name = rag_tool_name ∧ startsWithStr error_tok s = false then
        some { raw_text := s, extracted := false }
      else none
    | _ => none

/-- `tools_node`'s loop over `tool_calls` (custom_agent.py lines 353-393):
appends one `ToolMessage` per call in order; the `updated_state`
`rag_invoice` entry is overwritten by each successful RAG fetch, and
`none` here means the returned update carries no `rag_invoice` key
(the channel is left unchanged). -/
def tools_node (tools_by_name : Str → Option (ToolArgs → ToolOutcome))
    (tool_calls : List ToolCallReq) : List ToolMessage × Option RagInvoice :=
  tool_calls.foldl
    (fun acc call =>
      (acc.1 ++ [{ content := dispatch_call tools_by_name call, tool_call_id := call.id }],
       match rag_update_of tools_by_name call with
       | some r => some r
       | none => acc.2))
    ([], none)

/-- `tool_calls = getattr(last, "tool_calls", []) or []` on the last
message of the state (custom_agent.py lines 353-354). -/
def last_tool_calls (msgs : List ChatMsg) : List ToolCallReq :=
  match msgs.getLast? with
  | some (ChatMsg.ai _ tcs) => tcs
  | _ => []

/-- `tools_node` as a function of the whole state. -/
def tools_node_state (tools_by_name : Str → Option (ToolArgs → ToolOutcome))
    (st : AgentState) : List ToolMessage × Option RagInvoice :=
  tools_node tools_by_name (last_tool_calls st.messages)

/-- The `rag_invoice` accumulator of the `tools_node` loop, threaded left
to right (each successful RAG fetch overwrites the previous value;
`none` means no write happened). -/
def rag_last (tools_by_name : Str → Option (ToolArgs → ToolOutcome)) :
    List ToolCallReq → Option RagInvoice → Option RagInvoice
  | [], u => u
  | c :: rest, u =>
    rag_last tools_by_name rest
      (match rag_update_of tools_by_name c with
       | some r => some r
       | none => u)

/-
Sanity checks of the calendar embedding against `datetime.date`.
-/

/-- The ordinal of 0001-01-01 is 1, as in Python's `date.toordinal`. -/
lemma toOrdinalN_epoch : toOrdinalN ⟨1, 1, 1⟩ = 1 := by decide

/-- The ordinal of 9999-12-31 is `date.max.toordinal() = 3652059`. -/
lemma toOrdinalN_date_max : toOrdinalN ⟨9999, 12, 31⟩ = date_max_ordinal := by decide

/-- Roundtrip through a leap day. -/
lemma fromOrdinal_leap_roundtrip : fromOrdinal (toOrdinalN ⟨2024, 2, 29⟩) = ⟨2024, 2, 29⟩ := by
  decide

/-- Roundtrip through a year boundary. -/
lemma fromOrdinal_year_roundtrip : fromOrdinal (toOrdinalN ⟨2000, 12, 31⟩) = ⟨2000, 12, 31⟩ := by
  decide


/-- Claim C2: `_generate_thread_id` is a pure function of the question;
whenever the extractor detects an identifier the key is `invoice_` plus
the lowercased, hyphen-to-underscore-normalized identifier, so two
questions get the same key exactly when their detected identifiers agree
after that normalization, and different normalized identifiers give
different keys. -/
theorem C2_session_key_stability (md5hex8 : Str → Str) (q1 q2 i1 i2 : Str)
    (h1 : extract_invoice_identifier q1 = some i1)
    (h2 : extract_invoice_identifier q2 = some i2) :
    generate_thread_id md5hex8 q1 = "invoice_".toList ++ replaceHyphen (lowerStr i1) ∧
    (generate_thread_id md5hex8 q1 = generate_thread_id md5hex8 q2 ↔
      replaceHyphen (lowerStr i1) = replaceHyphen (lowerStr i2)) := by
  simp only [generate_thread_id, h1, h2]
  refine ⟨trivial, ?_⟩
  constructor
  · intro h
    exact List.append_cancel_left h
  · intro h
    rw [h]

/-- Witness for C2: `"dame la factura HBE122090"` and
`"factura hbe122090 por favor"` carry the same identifier up to case and
receive the identical `invoice_hbe122090` key. -/
theorem C2_witness :
    generate_thread_id (fun _ => []) "dame la factura HBE122090".toList =
      "invoice_".toList ++ replaceHyphen (lowerStr "HBE122090".toList) ∧
    (generate_thread_id (fun _ => []) "dame la factura HBE122090".toList =
        generate_thread_id (fun _ => []) "factura hbe122090 por favor".toList ↔
      replaceHyphen (lowerStr "HBE122090".toList) =
        replaceHyphen (lowerStr "hbe122090".toList)) :=
  C2_session_key_stability (fun _ => []) "dame la factura HBE122090".toList
    "factura hbe122090 por favor".toList "HBE122090".toList "hbe122090".toList
    (by decide) (by decide)

/-- Claim C3 (amended): on any input whose date string parses under none
of the four formats, `calcular_vencimiento` does not raise and returns
the error object: `fecha_vencimiento`, `vencida` and `dias_restantes`
are null and `error` holds the failure description — but `fecha_emision`
is not null: it echoes the raw input string. -/
theorem C3_error_result_amended (s : Str) (dias hoy : Int)
    (h : parse_fecha_emision s = none) :
    calcular_vencimiento s dias hoy = error_result s (parse_error_text s) ∧
    (calcular_vencimiento s dias hoy).fecha_vencimiento = none ∧
    (calcular_vencimiento s dias hoy).vencida = none ∧
    (calcular_vencimiento s dias hoy).dias_restantes = none ∧
    (calcular_vencimiento s dias hoy).error = some (parse_error_text s) ∧
    (calcular_vencimiento s dias hoy).fecha_emision = some s := by
  unfold calcular_vencimiento
  rw [h]
  exact ⟨rfl, rfl, rfl, rfl, rfl, rfl⟩

/-- Counterexample to C3 as stated: at the failing input
`("not-a-date", 5)` the claim requires every date field to be null, yet
the result's `fecha_emision` is the raw input string, not null. -/
theorem C3_counterexample :
    ¬ ((calcular_vencimiento "not-a-date".toList 5 0).fecha_emision = none) ∧
    (calcular_vencimiento "not-a-date".toList 5 0).fecha_emision =
      some "not-a-date".toList ∧
    (calcular_vencimiento "not-a-date".toList 5 0).error ≠ none := by
  refine ⟨by decide, by decide, by decide⟩

/-- Witness for C3 (amended) at the concrete failing input
`("not-a-date", 5)`. -/
theorem C3_witness :
    calcular_vencimiento "not-a-date".toList 5 0 =
      error_result "not-a-date".toList (parse_error_text "not-a-date".toList) :=
  (C3_error_result_amended "not-a-date".toList 5 0 (by decide)).1

/-- Claim C4: `calcular_vencimiento` attempts the four date formats in
the fixed order YYYY-MM-DD, DD-MM-YYYY, DD/MM/YYYY, YYYY/MM/DD and the
first that parses wins; in particular `"03-10-2025"` fails YYYY-MM-DD
(a year needs four digits) and parses as DD-MM-YYYY, 3 October 2025. -/
theorem C4_format_precedence :
    (∀ s d, fmt_ymd_dash (stripStr s) = some d → parse_fecha_emision s = some d) ∧
    (∀ s d, fmt_ymd_dash (stripStr s) = none → fmt_dmy_dash (stripStr s) = some d →
      parse_fecha_emision s = some d) ∧
    (∀ s d, fmt_ymd_dash (stripStr s) = none → fmt_dmy_dash (stripStr s) = none →
      fmt_dmy_slash (stripStr s) = some d → parse_fecha_emision s = some d) ∧
    (∀ s, fmt_ymd_dash (stripStr s) = none → fmt_dmy_dash (stripStr s) = none →
      fmt_dmy_slash (stripStr s) = none →
      parse_fecha_emision s = fmt_ymd_slash (stripStr s)) ∧
    fmt_ymd_dash (stripStr "03-10-2025".toList) = none ∧
    fmt_dmy_dash (stripStr "03-10-2025".toList) = some ⟨2025, 10, 3⟩ ∧
    parse_fecha_emision "03-10-2025".toList = some ⟨2025, 10, 3⟩ := by
  refine ⟨?_, ?_, ?_, ?_, by decide, by decide, by decide⟩
  · intro s d h
    simp [parse_fecha_emision, formatos_fecha, List.findSome?_cons, h]
  · intro s d h h2
    simp [parse_fecha_emision, formatos_fecha, List.findSome?_cons, h, h2]
  · intro s d h h2 h3
    simp [parse_fecha_emision, formatos_fecha, List.findSome?_cons, h, h2, h3]
  · intro s h h2 h3
    simp only [parse_fecha_emision, formatos_fecha, List.findSome?_cons, h, h2, h3]
    cases fmt_ymd_slash (stripStr s) <;> rfl

/-- Witness for C4: the precedence applied to the concrete input
`"03-10-2025"`. -/
theorem C4_witness : parse_fecha_emision "03-10-2025".toList = some ⟨2025, 10, 3⟩ :=
  C4_format_precedence.2.1 "03-10-2025".toList ⟨2025, 10, 3⟩ (by decide) (by decide)

/-- Claim C5 (amended): for every parsed issue date and credit days whose
sum stays inside the representable date range (ordinals 1..3652059), the
due date is `issue + credit_days` in calendar days, `dias_restantes` is
`due - hoy`, `vencida` holds exactly when `dias_restantes < 0`, and a
zero remainder (due today) is not overdue.  (Outside that range Python
raises `OverflowError` and the function takes the error path, so the
unconditional claim fails.) -/
theorem C5_due_date_arithmetic_amended (s : Str) (dias hoy : Int) (d : Ymd)
    (hp : parse_fecha_emision s = some d)
    (hlo : 1 ≤ (toOrdinalN d : Int) + dias)
    (hhi : (toOrdinalN d : Int) + dias ≤ (date_max_ordinal : Int)) :
    (calcular_vencimiento s dias hoy).fecha_emision = some (format_ymd d) ∧
    (calcular_vencimiento s dias hoy).fecha_vencimiento =
      some (format_ymd (fromOrdinal ((toOrdinalN d : Int) + dias).toNat)) ∧
    (calcular_vencimiento s dias hoy).dias_restantes =
      some ((toOrdinalN d : Int) + dias - hoy) ∧
    (calcular_vencimiento s dias hoy).error = none ∧
    ((calcular_vencimiento s dias hoy).vencida = some true ↔
      (toOrdinalN d : Int) + dias - hoy < 0) ∧
    ((toOrdinalN d : Int) + dias - hoy = 0 →
      (calcular_vencimiento s dias hoy).vencida = some false) := by
  have hcond : ¬ ((toOrdinalN d : Int) + dias < 1 ∨
      (date_max_ordinal : Int) < (toOrdinalN d : Int) + dias) := by omega
  simp only [calcular_vencimiento, hp, if_neg hcond]
  refine ⟨trivial, trivial, trivial, trivial, by simp, fun h0 => by simp [h0]⟩

/-- Counterexample to C5 as stated: with the parseable issue date
`"2025-01-01"` and `dias_credito = 10000000` the due date leaves the
representable range, so the function returns the error object instead of
the promised `issue + credit_days` result. -/
theorem C5_counterexample :
    (calcular_vencimiento "2025-01-01".toList 10000000
        ((toOrdinalN ⟨2025, 10, 12⟩ : Nat) : Int)).fecha_vencimiento = none ∧
    (calcular_vencimiento "2025-01-01".toList 10000000
        ((toOrdinalN ⟨2025, 10, 12⟩ : Nat) : Int)).dias_restantes = none ∧
    (calcular_vencimiento "2025-01-01".toList 10000000
        ((toOrdinalN ⟨2025, 10, 12⟩ : Nat) : Int)).error =
      some overflow_error_text := by
  refine ⟨by decide, by decide, by decide⟩

/-- Witness for C5 (amended): `"2025-01-01"` plus 30 days evaluated on
2025-01-31 is due today and not overdue. -/
theorem C5_witness :
    (calcular_vencimiento "2025-01-01".toList 30
        ((toOrdinalN ⟨2025, 1, 31⟩ : Nat) : Int)).vencida = some false :=
  (C5_due_date_arithmetic_amended "2025-01-01".toList 30 _ ⟨2025, 1, 1⟩
    (by decide) (by decide) (by decide)).2.2.2.2.2 (by decide)


/-- Claim C6: the flow-side extractor checks the letter+digit pattern,
the letters-hyphen-digits pattern and the `factura <token>` pattern in
that order and returns the first match; the 32-character CUFE pattern is
consulted only when all three fail; on
`"factura HBE122090 con CUFE ABCDEFGHIJKLMNOPQRSTUVWXYZ123456"` it
returns `"HBE122090"`. -/
theorem C6_extractor_priority :
    (∀ t r, re_search match_pat1_at t = some r →
      extract_invoice_identifier_from_text t = some r) ∧
    (∀ t r, re_search match_pat1_at t = none → re_search match_pat2_at t = some r →
      extract_invoice_identifier_from_text t = some r) ∧
    (∀ t r, re_search match_pat1_at t = none → re_search match_pat2_at t = none →
      re_search match_pat3_at t = some r →
      extract_invoice_identifier_from_text t = some r) ∧
    (∀ t, re_search match_pat1_at t = none → re_search match_pat2_at t = none →
      re_search match_pat3_at t = none →
      extract_invoice_identifier_from_text t = re_search match_cufe_at t) ∧
    extract_invoice_identifier_from_text
      "factura HBE122090 con CUFE ABCDEFGHIJKLMNOPQRSTUVWXYZ123456".toList =
      some "HBE122090".toList := by
  refine ⟨?_, ?_, ?_, ?_, by decide⟩
  · intro t r h
    simp [extract_invoice_identifier_from_text, h]
  · intro t r h h2
    simp [extract_invoice_identifier_from_text, h, h2]
  · intro t r h h2 h3
    simp [extract_invoice_identifier_from_text, h, h2, h3]
  · intro t h h2 h3
    simp [extract_invoice_identifier_from_text, h, h2, h3]

/-- Witness for C6: on `"dame la factura X9"` patterns 1 and 2 fail and
the `factura <token>` pattern supplies the result. -/
theorem C6_witness :
    extract_invoice_identifier_from_text "dame la factura X9".toList =
      some "X9".toList :=
  C6_extractor_priority.2.2.1 "dame la factura X9".toList "X9".toList
    (by decide) (by decide) (by decide)

/-- Helper: closed form of the `tools_node` fold. -/
lemma tools_node_foldl_eq (reg : Str → Option (ToolArgs → ToolOutcome)) :
    ∀ (calls : List ToolCallReq) (acc : List ToolMessage) (u : Option RagInvoice),
      List.foldl
        (fun acc call =>
          (acc.1 ++ [{ content := dispatch_call reg call, tool_call_id := call.id }],
           match rag_update_of reg call with
           | some r => some r
           | none => acc.2))
        (acc, u) calls =
      (acc ++ calls.map
          (fun c => { content := dispatch_call reg c, tool_call_id := c.id }),
        rag_last reg calls u) := by
  intro calls
  induction calls with
  | nil => intro acc u; simp [rag_last]
  | cons c rest ih =>
    intro acc u
    simp only [List.foldl_cons, List.map_cons, rag_last, ih, List.append_assoc,
      List.cons_append, List.nil_append]

/-- Helper: `tools_node` in closed form. -/
lemma tools_node_eq (reg : Str → Option (ToolArgs → ToolOutcome))
    (calls : List ToolCallReq) :
    tools_node reg calls =
      (calls.map (fun c => { content := dispatch_call reg c, tool_call_id := c.id }),
        rag_last reg calls none) := by
  unfold tools_node
  rw [tools_node_foldl_eq]
  simp

/-- Claim C7: for an assistant message requesting calls `[c1, ..., cn]`,
the ACT step appends exactly one tool result per call, in the same
relative order, each carrying the `tool_call_id` of its originating
call. -/
theorem C7_tool_result_ordering (reg : Str → Option (ToolArgs → ToolOutcome))
    (st : AgentState) (content : Str) (tcs : List ToolCallReq)
    (h : st.messages.getLast? = some (ChatMsg.ai content tcs)) :
    (tools_node_state reg st).1.map ToolMessage.tool_call_id =
      tcs.map ToolCallReq.id ∧
    (tools_node_state reg st).1.length = tcs.length := by
  have hl : last_tool_calls st.messages = tcs := by
    simp [last_tool_calls, h]
  unfold tools_node_state
  rw [hl, tools_node_eq]
  constructor
  · simp [List.map_map]
  · simp

/-- Witness for C7 at a concrete assistant message with three calls
`[A, B, C]`. -/
theorem C7_witness :
    (tools_node_state (fun _ => none)
        { messages := [ChatMsg.ai []
            [{ id := "A".toList, name := "x".toList, args := [] },
             { id := "B".toList, name := "y".toList, args := [] },
             { id := "C".toList, name := "z".toList, args := [] }]],
          rag_invoice := none }).1.map ToolMessage.tool_call_id =
      ["A".toList, "B".toList, "C".toList] :=
  ((C7_tool_result_ordering (fun _ => none) _ []
      [{ id := "A".toList, name := "x".toList, args := [] },
       { id := "B".toList, name := "y".toList, args := [] },
       { id := "C".toList, name := "z".toList, args := [] }]
      (by decide)).1).trans (by decide)

/-- Claim C8: tool dispatch never raises: an unknown tool name produces
the "herramienta no existe" error text, a raised exception is converted
into the "Error ejecutando herramienta" text, and the loop still emits
one tool result per requested call. -/
theorem C8_dispatch_never_raises (reg : Str → Option (ToolArgs → ToolOutcome))
    (call : ToolCallReq) :
    (reg call.name = none → dispatch_call reg call = tool_missing_text call.name) ∧
    (∀ t e, reg call.name = some t → t call.args = ToolOutcome.raised e →
      dispatch_call reg call = tool_failure_text call.name e) ∧
    (∀ calls : List ToolCallReq, (tools_node reg calls).1.length = calls.length) := by
  refine ⟨?_, ?_, ?_⟩
  · intro h
    simp [dispatch_call, h]
  · intro t e ht he
    simp [dispatch_call, ht, he]
  · intro calls
    rw [tools_node_eq]
    simp

/-- Witness for C8: a registry without the tool, and a tool that raises,
both yield error-text results. -/
theorem C8_witness :
    dispatch_call (fun _ => none)
        { id := "1".toList, name := "foo".toList, args := [] } =
      tool_missing_text "foo".toList ∧
    dispatch_call (fun _ => some (fun _ => ToolOutcome.raised "boom".toList))
        { id := "1".toList, name := "bar".toList, args := [] } =
      tool_failure_text "bar".toList "boom".toList :=
  ⟨(C8_dispatch_never_raises (fun _ => none)
      { id := "1".toList, name := "foo".toList, args := [] }).1 rfl,
   (C8_dispatch_never_raises (fun _ => some (fun _ => ToolOutcome.raised "boom".toList))
      { id := "1".toList, name := "bar".toList, args := [] }).2.1
      (fun _ => ToolOutcome.raised "boom".toList) "boom".toList rfl rfl⟩

/-- Helper: when the threaded accumulator is `none` at the end, no call
produced an update. -/
lemma rag_last_eq_none_iff (reg : Str → Option (ToolArgs → ToolOutcome)) :
    ∀ (calls : List ToolCallReq) (u : Option RagInvoice),
      rag_last reg calls u = none ↔
        ((∀ c ∈ calls, rag_update_of reg c = none) ∧ u = none) := by
  intro calls
  induction calls with
  | nil => intro u; simp [rag_last]
  | cons c rest ih =>
    intro u
    cases h : rag_update_of reg c with
    | some r => simp [rag_last, h, ih, List.forall_mem_cons]
    | none =>
      simp only [rag_last, h, ih, List.forall_mem_cons]
      tauto

/-- Claim C9: during one ACT step the `rag_invoice` update exists exactly
when some call produced a per-call update, and a per-call update exists
exactly when the call is to `rag_get_invoice_data`, the tool returned a
string, and the string does not start with `"Error"` — every other call
leaves the cache untouched. -/
theorem C9_rag_cache_frame (reg : Str → Option (ToolArgs → ToolOutcome))
    (calls : List ToolCallReq) (c : ToolCallReq) (ri : RagInvoice) :
    ((tools_node reg calls).2 ≠ none ↔
      ∃ c2 ∈ calls, rag_update_of reg c2 ≠ none) ∧
    (rag_update_of reg c = some ri ↔
      c.name = rag_tool_name ∧
      ∃ t s, reg c.name = some t ∧ t c.args = ToolOutcome.ok (ToolValue.str s) ∧
        startsWithStr error_tok s = false ∧ ri = { raw_text := s, extracted := false }) := by
  constructor
  · rw [tools_node_eq]
    constructor
    · intro h
      by_contra hn
      push_neg at hn
      exact h ((rag_last_eq_none_iff reg calls none).mpr ⟨hn, rfl⟩)
    · rintro ⟨c2, hc2, hne⟩ hnone
      exact hne (((rag_last_eq_none_iff reg calls none).mp hnone).1 c2 hc2)
  · constructor
    · intro h
      rcases hreg : reg c.name with - | tool
      · unfold rag_update_of at h
        rw [hreg] at h
        exact Option.noConfusion h
      · unfold rag_update_of at h
        rw [hreg] at h
        have h2 : (match tool c.args with
            | ToolOutcome.ok (ToolValue.str s) =>
              if c.name = rag_tool_name ∧ startsWithStr error_tok s = false then
                some ({ raw_text := s, extracted := false } : RagInvoice)
              else none
            | _ => none) = some ri := h
        rcases hout : tool c.args with v | e
        · rcases v with s | r
          · rw [hout] at h2
            have h3 : (if c.name = rag_tool_name ∧ startsWithStr error_tok s = false then
                some ({ raw_text := s, extracted := false } : RagInvoice)
              else none) = some ri := h2
            split_ifs at h3 with hc
            refine ⟨hc.1, tool, s, rfl, hout, hc.2, ?_⟩
            injection h3 with h4
            exact h4.symm
          · rw [hout] at h2
            exact Option.noConfusion h2
        · rw [hout] at h2
          exact Option.noConfusion h2
    · rintro ⟨hn, t, s, ht, hs, hsw, hri⟩
      subst hri
      unfold rag_update_of
      rw [ht]
      show (match t c.args with
        | ToolOutcome.ok (ToolValue.str s2) =>
          if c.name = rag_tool_name ∧ startsWithStr error_tok s2 = false then
            some ({ raw_text := s2, extracted := false } : RagInvoice)
          else none
        | _ => none) = some { raw_text := s, extracted := false }
      rw [hs]
      show (if c.name = rag_tool_name ∧ startsWithStr error_tok s = false then
          some ({ raw_text := s, extracted := false } : RagInvoice)
        else none) = some { raw_text := s, extracted := false }
      rw [if_pos ⟨hn, hsw⟩]


/-- Claim C1: every `ask_custom` invocation seeds the agent with a fresh
state (exactly one user message, `rag_invoice = None`); within an
invocation the DECIDE step clears the cached payload whenever the
identifier embedded in it differs case-insensitively from the identifier
detected in the latest user message, so a cached payload surviving the
clearing step always matches the identifier currently asked about, and
when nothing is cached the constructed prompt carries no contextual
note. -/
theorem C1_context_isolation (q : Str) (st : AgentState) (ri : RagInvoice)
    (cid pid : Str) (sys : Str) :
    (ask_initial_state q).messages = [ChatMsg.human q] ∧
    (ask_initial_state q).rag_invoice = none ∧
    (find_current_invoice_id st.messages = some cid →
      st.rag_invoice = some ri →
      extract_invoice_identifier_from_text ri.raw_text = some pid →
      upperStr pid ≠ upperStr cid →
      (decide_clear st).rag_invoice = none) ∧
    ((decide_clear st).rag_invoice = some ri →
      find_current_invoice_id st.messages = some cid →
      extract_invoice_identifier_from_text ri.raw_text = some pid →
      upperStr pid = upperStr cid) ∧
    ((decide_clear st).rag_invoice = none →
      build_prompt sys (decide_clear st) =
        ChatMsg.system sys :: (decide_clear st).messages.filter is_conversational) := by
  refine ⟨rfl, rfl, ?_, ?_, ?_⟩
  · intro hf hr he hne
    simp [decide_clear, hf, hr, he, hne]
  · intro hkeep hf he
    unfold decide_clear at hkeep
    rw [hf] at hkeep
    have hk : (match st.rag_invoice with
        | none => st
        | some ri2 =>
          match extract_invoice_identifier_from_text ri2.raw_text with
          | none => st
          | some pid2 =>
            if upperStr pid2 ≠ upperStr cid then { st with rag_invoice := none }
            else st).rag_invoice = some ri := hkeep
    cases hr : st.rag_invoice with
    | none =>
      rw [hr] at hk
      have hk3 : st.rag_invoice = some ri := hk
      rw [hr] at hk3
      exact Option.noConfusion hk3
    | some ri0 =>
      rw [hr] at hk
      have hk2 : (match extract_invoice_identifier_from_text ri0.raw_text with
          | none => st
          | some pid2 =>
            if upperStr pid2 ≠ upperStr cid then { st with rag_invoice := none }
            else st).rag_invoice = some ri := hk
      cases hp : extract_invoice_identifier_from_text ri0.raw_text with
      | none =>
        rw [hp] at hk2
        have hk3 : st.rag_invoice = some ri := hk2
        rw [hr] at hk3
        injection hk3 with h2
        subst h2
        rw [hp] at he
        exact Option.noConfusion he
      | some pid0 =>
        rw [hp] at hk2
        have hk3 : (if upperStr pid0 ≠ upperStr cid then
            ({ st with rag_invoice := none } : AgentState) else st).rag_invoice
            = some ri := hk2
        by_cases hne2 : upperStr pid0 ≠ upperStr cid
        · rw [if_pos hne2] at hk3
          exact Option.noConfusion hk3
        · rw [if_neg hne2] at hk3
          push_neg at hne2
          rw [hr] at hk3
          injection hk3 with h2
          subst h2
          rw [hp] at he
          injection he with h3
          subst h3
          exact hne2
  · intro h0
    simp [build_prompt, h0]

/-- Witness for C1 at concrete states: a question about `XYZ999999` clears
a cached `hbe122090` payload; a question about `HBE122090` keeps it and
the identifiers agree case-insensitively. -/
theorem C1_witness :
    (decide_clear
        { messages := [ChatMsg.human "dame la factura XYZ999999".toList],
          rag_invoice := some { raw_text := "Factura hbe122090 total 100".toList,
                                extracted := false } }).rag_invoice = none ∧
    upperStr "hbe122090".toList = upperStr "HBE122090".toList :=
  ⟨(C1_context_isolation []
      { messages := [ChatMsg.human "dame la factura XYZ999999".toList],
        rag_invoice := some { raw_text := "Factura hbe122090 total 100".toList,
                              extracted := false } }
      { raw_text := "Factura hbe122090 total 100".toList, extracted := false }
      "XYZ999999".toList "hbe122090".toList []).2.2.1
      (by decide) (by decide) (by decide) (by decide),
   (C1_context_isolation []
      { messages := [ChatMsg.human "dame la factura HBE122090".toList],
        rag_invoice := some { raw_text := "Factura hbe122090 total 100".toList,
                              extracted := false } }
      { raw_text := "Factura hbe122090 total 100".toList, extracted := false }
      "HBE122090".toList "hbe122090".toList []).2.2.2.1
      (by decide) (by decide) (by decide)⟩


/-- Helper: an ASCII digit is not an ASCII letter. -/
lemma digit_not_letter {c : Char} (h : isAsciiDigitB c = true) :
    isAsciiLetterB c = false := by
  simp only [isAsciiDigitB, Bool.and_eq_true, decide_eq_true_eq] at h
  simp only [isAsciiLetterB, isAsciiUpperB, isAsciiLowerB, Bool.or_eq_false_iff,
    Bool.and_eq_false_iff, decide_eq_false_iff_not, not_le]
  omega

/-- Helper: an ASCII digit is a regex word character. -/
lemma digit_word {c : Char} (h : isAsciiDigitB c = true) : isWordCharB c = true := by
  simp [isWordCharB, isAlnumB, h]

/-- Helper: `takeWhile` of a concatenation whose prefix wholly satisfies
the predicate and whose remainder starts with a failing character. -/
lemma takeWhile_all_append (p : Char → Bool) :
    ∀ (pre rest : Str), (∀ c ∈ pre, p c = true) →
      (∀ c, rest.head? = some c → p c = false) →
      (pre ++ rest).takeWhile p = pre := by
  intro pre
  induction pre with
  | nil =>
    intro rest _ h2
    cases rest with
    | nil => rfl
    | cons c cs => simp [List.takeWhile_cons, h2 c rfl]
  | cons a pre ih =>
    intro rest h1 h2
    have ha : p a = true := h1 a (List.mem_cons_self a pre)
    simp [List.takeWhile_cons, ha,
      ih rest (fun c hc => h1 c (List.mem_cons_of_mem a hc)) h2]

/-- Helper: unfolding of the search driver on the empty remainder. -/
lemma searchFrom_nil (m : Option Char → Str → Option Str) (prev : Option Char) :
    searchFrom m prev [] =
      match m prev [] with
      | some r => some r
      | none => none := rfl

/-- Helper: unfolding of the search driver on a nonempty remainder. -/
lemma searchFrom_cons (m : Option Char → Str → Option Str) (prev : Option Char)
    (c : Char) (rest : Str) :
    searchFrom m prev (c :: rest) =
      match m prev (c :: rest) with
      | some r => some r
      | none => searchFrom m (some c) rest := rfl

/-- Helper: wherever the service-only pattern `\b([A-Z]{2}\d{9})\b`
matches, pattern 1 `\b([A-Z]{2,4}\d{6,})\b` also matches: the two
letters are followed by a digit, so the maximal letter run has length
exactly 2, and the nine digits are followed by a non-word character, so
the maximal digit run has length exactly 9 with the same trailing
boundary. -/
lemma pat4_at_imp_pat1_at (prev : Option Char) (s : Str)
    (h4 : match_pat4_at prev s ≠ none) : match_pat1_at prev s ≠ none := by
  simp only [match_pat4_at] at h4
  split_ifs at h4 with hb hc
  · obtain ⟨hl2, hlet, hd9, hdig, haft⟩ := hc
    have hdsne : (s.drop 2).take 9 ≠ [] := by
      intro hnil
      rw [hnil] at hd9
      exact absurd hd9 (by decide)
    obtain ⟨dh, dtl, hds⟩ := List.exists_cons_of_ne_nil hdsne
    have hdh_digit : isAsciiDigitB dh = true := by
      have hmem : dh ∈ (s.drop 2).take 9 := by
        rw [hds]; exact List.mem_cons_self dh dtl
      exact List.all_eq_true.mp hdig dh hmem
    have hhead : (s.drop 2).head? = some dh := by
      rw [← List.take_append_drop 9 (s.drop 2), hds]
      rfl
    have hA : s.takeWhile isAsciiLetterB = s.take 2 := by
      have hx := takeWhile_all_append isAsciiLetterB (s.take 2) (s.drop 2)
        (List.all_eq_true.mp hlet)
        (fun c hc2 => by
          rw [hhead] at hc2
          injection hc2 with h
          subst h
          exact digit_not_letter hdh_digit)
      rwa [List.take_append_drop] at hx
    have hu : (s.drop 2).drop 9 = s.drop 11 := by
      rw [List.drop_drop]
    have hB : (s.drop 2).takeWhile isAsciiDigitB = (s.drop 2).take 9 := by
      have hx := takeWhile_all_append isAsciiDigitB ((s.drop 2).take 9)
        ((s.drop 2).drop 9)
        (List.all_eq_true.mp hdig)
        (fun c hc2 => by
          rw [hu] at hc2
          cases hrest : s.drop 11 with
          | nil => rw [hrest] at hc2; exact Option.noConfusion hc2
          | cons c2 cs =>
            rw [hrest] at hc2
            injection hc2 with h
            rw [hrest] at haft
            have hw : isWordCharB c2 = false := by simpa [afterOk] using haft
            rw [← h]
            cases hdc : isAsciiDigitB c2 with
            | false => rfl
            | true => rw [digit_word hdc] at hw; exact Bool.noConfusion hw)
      rwa [List.take_append_drop] at hx
    simp only [match_pat1_at, hb, if_true]
    rw [hA, hl2, hB, hd9, hu]
    simp [haft]
  · exact absurd rfl h4
  · exact absurd rfl h4

/-- Helper: if pattern 1 finds no match anywhere, neither does the
service-only pattern 4. -/
lemma searchFrom_p1_p4 :
    ∀ (s : Str) (prev : Option Char),
      searchFrom match_pat1_at prev s = none →
      searchFrom match_pat4_at prev s = none := by
  intro s
  induction s with
  | nil =>
    intro prev h1
    rw [searchFrom_nil] at h1 ⊢
    cases hm1 : match_pat1_at prev [] with
    | some r => rw [hm1] at h1; exact Option.noConfusion h1
    | none =>
      have h4 : match_pat4_at prev [] = none := by
        cases h4x : match_pat4_at prev [] with
        | none => rfl
        | some r =>
          exact absurd hm1
            (pat4_at_imp_pat1_at prev []
              (by rw [h4x]; exact fun h => Option.noConfusion h))
      rw [h4]
  | cons c rest ih =>
    intro prev h1
    rw [searchFrom_cons] at h1 ⊢
    cases hm1 : match_pat1_at prev (c :: rest) with
    | some r => rw [hm1] at h1; exact Option.noConfusion h1
    | none =>
      rw [hm1] at h1
      have h4 : match_pat4_at prev (c :: rest) = none := by
        cases h4x : match_pat4_at prev (c :: rest) with
        | none => rfl
        | some r =>
          exact absurd hm1
            (pat4_at_imp_pat1_at prev (c :: rest)
              (by rw [h4x]; exact fun h => Option.noConfusion h))
      rw [h4]
      exact ih (some c) h1

/-- Claim C10: the flow-side and service-side identifier extractors
compute the same function: the service's extra `[A-Z]{2}\d{9}` pattern
can only match at positions where pattern 1 already matches, so it never
changes the outcome. -/
theorem C10_extractors_agree (t : Str) :
    extract_invoice_identifier_from_text t = extract_invoice_identifier t := by
  unfold extract_invoice_identifier_from_text extract_invoice_identifier
  cases h1 : re_search match_pat1_at t with
  | some r => rfl
  | none =>
    cases h2 : re_search match_pat2_at t with
    | some r => rfl
    | none =>
      cases h3 : re_search match_pat3_at t with
      | some r => rfl
      | none =>
        have h4 : re_search match_pat4_at t = none := searchFrom_p1_p4 t none h1
        rw [h4]
